import Mathlib

/-!
Shallow embedding of the P2P connection-and-messaging subsystem of the
EOS-testing repository (`src/p2p/p2p_manager.cpp`, `include/eos_testing/p2p/p2p_manager.hpp`).

The C++ manager is compiled in one of two modes: `EOS_STUB_MODE` (a
self-contained simulation, no SDK) and the real-SDK mode (calls into the
black-box EOS transport).  Both code paths are embedded here: functions
whose name carries the suffix `_sdk` model the non-stub branch, with the
external SDK abstracted as an `SdkEnv` oracle and an explicit log of the
calls handed to the transport; the unsuffixed functions model the
`EOS_STUB_MODE` branch.  `EOS_ProductUserId` is an opaque pointer in the
source; it is modelled as a `Nat`, with `0` standing for `nullptr`.
Consumer callbacks (`on_connection_established`, `on_connection_closed`,
`on_packet_received`) are `std::function` fields tested for emptiness
before each call; they are modelled by presence flags, and each operation
returns the list of callback invocations it performs.
-/

namespace EOSTesting

/-- `enum class PacketReliability` from the header. -/
inductive PacketReliability where
  | UnreliableUnordered
  | ReliableUnordered
  | ReliableOrdered
deriving DecidableEq, Repr

/-- `enum class ConnectionStatus` from the header. -/
inductive ConnectionStatus where
  | Disconnected
  | Connecting
  | Connected
  | ConnectionFailed
deriving DecidableEq, Repr

/-- `struct PeerConnection` from the header, with its field defaults. -/
structure PeerConnection where
  peer_id : Nat := 0
  display_name : String := ""
  status : ConnectionStatus := ConnectionStatus.Disconnected
  is_relay : Bool := false
  ping_ms : Nat := 0
  bytes_sent : Nat := 0
  bytes_received : Nat := 0
deriving DecidableEq, Repr

/-- `struct IncomingPacket` from the header. -/
structure IncomingPacket where
  sender : Nat := 0
  channel : Nat := 0
  data : List Nat := []
deriving DecidableEq, Repr

/-- `struct P2PConfig` from the header, with its field defaults. -/
structure P2PConfig where
  socket_name : String := "GameSocket"
  allow_relay : Bool := true
  max_packet_size : Nat := 1170
  num_channels : Nat := 2
deriving DecidableEq, Repr

/-- Presence of the three `std::function` callback members of `P2PManager`
(the C++ tests each one with `if (callback)` before invoking it). -/
structure Handlers where
  onConnectionEstablished : Bool := false
  onConnectionClosed : Bool := false
  onPacketReceived : Bool := false
deriving DecidableEq, Repr

/-- The mutable state of the `P2PManager` singleton: `m_initialized`,
`m_config`, `m_connections` (an unordered map, modelled as an association
list), and `m_incoming_packets` (a FIFO queue, front at the head). -/
structure P2PState where
  initialized : Bool := false
  config : P2PConfig := {}
  connections : List (Nat × PeerConnection) := []
  incoming : List IncomingPacket := []
  handlers : Handlers := {}
deriving DecidableEq, Repr

/-- A consumer-callback invocation performed by an operation. -/
inductive Event where
  | connectionEstablished (peer : Nat) (status : ConnectionStatus)
  | connectionClosed (peer : Nat) (status : ConnectionStatus)
  | packetReceived (pkt : IncomingPacket)
deriving DecidableEq, Repr

/-- A call handed to the black-box EOS transport in non-stub mode. -/
inductive TransportCall where
  | sendPacket (peer : Nat) (data : List Nat) (channel : Nat) (rel : PacketReliability)
  | acceptConnection (peer : Nat)
  | closeConnection (peer : Nat)
deriving DecidableEq, Repr

/-- The external SDK, abstracted: whether `Platform::get_handle()` is
non-null, whether `AuthManager::is_logged_in()` holds, and the result
`EOS_P2P_SendPacket` returns for a given call. -/
structure SdkEnv where
  platformReady : Bool := true
  loggedIn : Bool := true
  sendAccepted : Nat → List Nat → Nat → PacketReliability → Bool := fun _ _ _ _ => true

/-- `m_connections.find(p)` on the association-list model of the map. -/
def lookupConn (m : List (Nat × PeerConnection)) (p : Nat) : Option PeerConnection :=
  match m with
  | [] => none
  | (q, c) :: rest => if q = p then some c else lookupConn rest p

/-- `m_connections[p] = c` (insert-or-assign) on the model of the map. -/
def insertConn (m : List (Nat × PeerConnection)) (p : Nat) (c : PeerConnection) :
    List (Nat × PeerConnection) :=
  match m with
  | [] => [(p, c)]
  | (q, c0) :: rest => if q = p then (p, c) :: rest else (q, c0) :: insertConn rest p c

/-- `m_connections.erase(p)` on the model of the map. -/
def eraseConn (m : List (Nat × PeerConnection)) (p : Nat) : List (Nat × PeerConnection) :=
  m.filter (fun e => e.1 != p)

/-- Mutation of the entry at key `p` when present (`find` + in-place update);
a missing key leaves the map unchanged. -/
def updateConn (m : List (Nat × PeerConnection)) (p : Nat)
    (f : PeerConnection → PeerConnection) : List (Nat × PeerConnection) :=
  m.map (fun e => if e.1 = p then (e.1, f e.2) else e)

/-- `P2PManager::initialize` (stub branch; the `is_logged_in` test precedes
the mode split and is shared by both branches).  Returns the C++ `bool`
and the post-state: already-initialized returns `true` unchanged, an
unauthenticated caller gets `false` unchanged, otherwise the config is
stored and `m_initialized` is set. -/
def initializeP2P (loggedIn : Bool) (st : P2PState) (cfg : P2PConfig) : Bool × P2PState :=
  if st.initialized then (true, st)
  else if !loggedIn then (false, st)
  else (true, { st with config := cfg, initialized := true })

/-- `P2PManager::send_packet` (stub branch): validation then, on success,
`bytes_sent += size` for the peer's entry when one exists.  `data` models
the `(data, size)` pair; the null-pointer and `size == 0` rejections
coincide on the empty list. -/
def send_packet (st : P2PState) (peer : Nat) (data : List Nat) (channel : Nat)
    (rel : PacketReliability) : Bool × P2PState :=
  if !st.initialized || peer == 0 || data.isEmpty then (false, st)
  else if st.config.max_packet_size < data.length then (false, st)
  else
    let conns := updateConn st.connections peer
      (fun c => { c with bytes_sent := c.bytes_sent + data.length })
    (true, { st with connections := conns })

/-- `P2PManager::send_packet` (non-stub branch): the same validation, then
`EOS_P2P_SendPacket` is invoked (recorded in the transport-call log) and
the counter is bumped only when the SDK reports success. -/
def send_packet_sdk (env : SdkEnv) (st : P2PState) (peer : Nat) (data : List Nat)
    (channel : Nat) (rel : PacketReliability) : Bool × P2PState × List TransportCall :=
  if !st.initialized || peer == 0 || data.isEmpty then (false, st, [])
  else if st.config.max_packet_size < data.length then (false, st, [])
  else if !env.platformReady then (false, st, [])
  else if env.sendAccepted peer data channel rel then
    let conns := updateConn st.connections peer
      (fun c => { c with bytes_sent := c.bytes_sent + data.length })
    (true, { st with connections := conns },
     [TransportCall.sendPacket peer data channel rel])
  else (false, st, [TransportCall.sendPacket peer data channel rel])

/-- `P2PManager::connect_to_peer` (stub branch): overwrites the entry with a
fresh `Connected` record and fires `on_connection_established`. -/
def connect_to_peer (st : P2PState) (peer : Nat) : P2PState × List Event :=
  if !st.initialized || peer == 0 then (st, [])
  else
    let conn : PeerConnection :=
      { peer_id := peer, display_name := "StubPeer", status := ConnectionStatus.Connected,
        is_relay := false, ping_ms := 25 }
    ({ st with connections := insertConn st.connections peer conn },
     if st.handlers.onConnectionEstablished then
       [Event.connectionEstablished peer ConnectionStatus.Connected]
     else [])

/-- `P2PManager::connect_to_peer` (non-stub branch): sends the one-byte
`0x01` hello via `send_packet` on channel 0 with `ReliableOrdered`, then
unconditionally overwrites the entry with a fresh `Connecting` record. -/
def connect_to_peer_sdk (env : SdkEnv) (st : P2PState) (peer : Nat) :
    P2PState × List TransportCall :=
  if !st.initialized || peer == 0 then (st, [])
  else
    let s := send_packet_sdk env st peer [1] 0 PacketReliability.ReliableOrdered
    let conn : PeerConnection :=
      { peer_id := peer, status := ConnectionStatus.Connecting }
    ({ s.2.1 with connections := insertConn s.2.1.connections peer conn }, s.2.2)

/-- `P2PManager::disconnect_from_peer` (stub branch): erases the entry (a
no-op erase when absent) and then fires `on_connection_closed` with
`Disconnected` unconditionally. -/
def disconnect_from_peer (st : P2PState) (peer : Nat) : P2PState × List Event :=
  if !st.initialized || peer == 0 then (st, [])
  else
    ({ st with connections := eraseConn st.connections peer },
     if st.handlers.onConnectionClosed then
       [Event.connectionClosed peer ConnectionStatus.Disconnected]
     else [])

/-- `P2PManager::accept_connections` (non-stub branch): when initialized and
the platform handle is available, hands `EOS_P2P_AcceptConnection` to the
transport for the given peer (`0` = accept all); no registry change, no
callback. -/
def accept_connections_sdk (env : SdkEnv) (st : P2PState) (peer : Nat) :
    List TransportCall :=
  if !st.initialized then []
  else if !env.platformReady then []
  else [TransportCall.acceptConnection peer]

/-- `P2PManager::handle_connection_request` (the SDK's incoming-request
notification): auto-accepts every request by calling `accept_connections`. -/
def handle_connection_request (env : SdkEnv) (st : P2PState) (peer : Nat) :
    List TransportCall :=
  accept_connections_sdk env st peer

/-- `P2PManager::handle_connection_established` (the SDK's
connection-established notification): promotes an existing entry to
`Connected`, or inserts a fresh `Connected` entry, then fires
`on_connection_established`. -/
def handle_connection_established (st : P2PState) (peer : Nat) :
    P2PState × List Event :=
  let conns :=
    match lookupConn st.connections peer with
    | some _ =>
        updateConn st.connections peer (fun c => { c with status := ConnectionStatus.Connected })
    | none =>
        insertConn st.connections peer
          { peer_id := peer, status := ConnectionStatus.Connected }
  ({ st with connections := conns },
   if st.handlers.onConnectionEstablished then
     [Event.connectionEstablished peer ConnectionStatus.Connected]
   else [])

/-- `P2PManager::handle_connection_closed` (the SDK's connection-closed
notification): erases the entry and fires `on_connection_closed`. -/
def handle_connection_closed (st : P2PState) (peer : Nat) : P2PState × List Event :=
  ({ st with connections := eraseConn st.connections peer },
   if st.handlers.onConnectionClosed then
     [Event.connectionClosed peer ConnectionStatus.Disconnected]
   else [])

/-- The `while (!m_incoming_packets.empty() && packets_received < max_packets)`
loop inside `receive_packets` (stub branch), structurally recursive on the
remaining allowance. -/
def receive_loop (st : P2PState) (fuel : Nat) : Nat × P2PState × List Event :=
  match fuel with
  | 0 => (0, st, [])
  | Nat.succ fuel =>
    match st.incoming with
    | [] => (0, st, [])
    | pkt :: rest =>
      let evs := if st.handlers.onPacketReceived then [Event.packetReceived pkt] else []
      let r := receive_loop { st with incoming := rest } fuel
      (r.1 + 1, r.2.1, evs ++ r.2.2)

/-- `P2PManager::receive_packets` (stub branch): pops up to `max_packets`
queued packets in FIFO order, invoking `on_packet_received` (when set) for
each, and returns the number processed. -/
def receive_packets (st : P2PState) (max_packets : Nat) : Nat × P2PState × List Event :=
  if !st.initialized then (0, st, [])
  else receive_loop st max_packets

/-- The snapshot step of `broadcast_packet`: keys of the entries whose
status is `Connected`, in table order. -/
def connectedPeers (st : P2PState) : List Nat :=
  (st.connections.filter (fun e => e.2.status == ConnectionStatus.Connected)).map
    (fun e => e.1)

/-- The fan-out loop of `broadcast_packet` (non-stub branch): one
`send_packet` per snapshotted peer, threading the state and concatenating
the transport-call logs. -/
def broadcast_loop (env : SdkEnv) (st : P2PState) (peers : List Nat) (data : List Nat)
    (channel : Nat) (rel : PacketReliability) : P2PState × List TransportCall :=
  match peers with
  | [] => (st, [])
  | p :: rest =>
    let s := send_packet_sdk env st p data channel rel
    let r := broadcast_loop env s.2.1 rest data channel rel
    (r.1, s.2.2 ++ r.2)

/-- `P2PManager::broadcast_packet` (non-stub branch): snapshot the
`Connected` peers, then `send_packet` to each.  Note the source has no
`m_initialized` guard here; each inner `send_packet` carries its own. -/
def broadcast_packet_sdk (env : SdkEnv) (st : P2PState) (data : List Nat)
    (channel : Nat) (rel : PacketReliability) : P2PState × List TransportCall :=
  broadcast_loop env st (connectedPeers st) data channel rel

/-- `P2PManager::get_peer_connection`: snapshot query of one entry. -/
def get_peer_connection (st : P2PState) (peer : Nat) : Option PeerConnection :=
  lookupConn st.connections peer

/-- `P2PManager::shutdown` (stub branch): clears the table and resets
`m_initialized`. -/
def shutdown (st : P2PState) : P2PState :=
  if !st.initialized then st
  else { st with connections := [], initialized := false }

/-- An SDK environment in which the platform is up, the user is logged in
and every send is accepted by the transport. -/
def envAll : SdkEnv := {}

/-- An initialized manager state with all three consumer callbacks
registered and an empty registry and queue. -/
def stI : P2PState :=
  { initialized := true,
    handlers := { onConnectionEstablished := true, onConnectionClosed := true,
                  onPacketReceived := true } }

/-- A registry entry for peer 1 stuck in `Connecting`. -/
def connConnecting1 : PeerConnection :=
  { peer_id := 1, status := ConnectionStatus.Connecting }

/-- A queued inbound application packet from peer 1. -/
def pktFrom1 : IncomingPacket := { sender := 1, data := [42] }

/-- Initialized state in which peer 1 is `Connecting` and one application
packet from peer 1 sits in the inbound queue. -/
def stC1 : P2PState :=
  { stI with connections := [(1, connConnecting1)], incoming := [pktFrom1] }

/-- A registry entry for peer 5, `Connected`, 5 bytes already counted as
sent. -/
def conn5 : PeerConnection :=
  { peer_id := 5, status := ConnectionStatus.Connected, bytes_sent := 5 }

/-- Initialized state in which peer 5 is `Connected` with 5 bytes already
counted as sent. -/
def stC3 : P2PState :=
  { initialized := true, connections := [(5, conn5)] }

/-- Initialized state whose configured `max_packet_size` is 3. -/
def stMax3 : P2PState :=
  { initialized := true, config := { max_packet_size := 3 } }

/-- Initialized state with one `Connected` peer (5) and one `Connecting`
peer (1). -/
def stBroadcast : P2PState :=
  { initialized := true,
    connections :=
      [(5, { peer_id := 5, status := ConnectionStatus.Connected, bytes_sent := 5 }),
       (1, connConnecting1)] }

/-- Initialized state with three queued inbound packets, for draining. -/
def stQ : P2PState :=
  { stI with incoming := [pktFrom1, { sender := 2, data := [7] }, { sender := 3, data := [8] }] }

/-- The default (never-initialized) manager state. -/
def stU : P2PState := {}

/-- Whether an event is a packet-delivery callback (as opposed to a
connection-state callback). -/
def isPacketEvent : Event → Bool :=
  fun e =>
    match e with
    | Event.packetReceived _ => true
    | _ => false

theorem lookupConn_cons (q : Nat) (c0 : PeerConnection)
    (rest : List (Nat × PeerConnection)) (p : Nat) :
    lookupConn ((q, c0) :: rest) p = if q = p then some c0 else lookupConn rest p :=
  rfl

theorem insertConn_cons (q : Nat) (c0 : PeerConnection)
    (rest : List (Nat × PeerConnection)) (p : Nat) (c : PeerConnection) :
    insertConn ((q, c0) :: rest) p c =
      if q = p then (p, c) :: rest else (q, c0) :: insertConn rest p c :=
  rfl

theorem updateConn_cons (q : Nat) (c0 : PeerConnection)
    (rest : List (Nat × PeerConnection)) (p : Nat)
    (f : PeerConnection → PeerConnection) :
    updateConn ((q, c0) :: rest) p f =
      (if q = p then (q, f c0) else (q, c0)) :: updateConn rest p f := by
  by_cases hq : q = p <;> simp [updateConn, hq]

theorem eraseConn_cons (q : Nat) (c0 : PeerConnection)
    (rest : List (Nat × PeerConnection)) (p : Nat) :
    eraseConn ((q, c0) :: rest) p =
      if q = p then eraseConn rest p else (q, c0) :: eraseConn rest p := by
  by_cases hq : q = p <;> simp [eraseConn, List.filter_cons, hq]

theorem lookupConn_insertConn (m : List (Nat × PeerConnection)) (p : Nat)
    (c : PeerConnection) : lookupConn (insertConn m p c) p = some c := by
  induction m with
  | nil => simp [insertConn, lookupConn]
  | cons e rest ih =>
    obtain ⟨q, c0⟩ := e
    by_cases hq : q = p
    · rw [insertConn_cons, if_pos hq, lookupConn_cons, if_pos rfl]
    · rw [insertConn_cons, if_neg hq, lookupConn_cons, if_neg hq, ih]

theorem lookupConn_updateConn (m : List (Nat × PeerConnection)) (p : Nat)
    (f : PeerConnection → PeerConnection) :
    lookupConn (updateConn m p f) p = Option.map f (lookupConn m p) := by
  induction m with
  | nil => simp [updateConn, lookupConn]
  | cons e rest ih =>
    obtain ⟨q, c0⟩ := e
    by_cases hq : q = p
    · rw [updateConn_cons, if_pos hq, lookupConn_cons, if_pos hq,
        lookupConn_cons, if_pos hq]
      rfl
    · rw [updateConn_cons, if_neg hq, lookupConn_cons, if_neg hq,
        lookupConn_cons, if_neg hq, ih]

theorem updateConn_absent (m : List (Nat × PeerConnection)) (p : Nat)
    (f : PeerConnection → PeerConnection) (h : lookupConn m p = none) :
    updateConn m p f = m := by
  induction m with
  | nil => simp [updateConn]
  | cons e rest ih =>
    obtain ⟨q, c0⟩ := e
    by_cases hq : q = p
    · rw [lookupConn_cons, if_pos hq] at h
      exact absurd h (by simp)
    · rw [lookupConn_cons, if_neg hq] at h
      rw [updateConn_cons, if_neg hq, ih h]

theorem eraseConn_absent (m : List (Nat × PeerConnection)) (p : Nat)
    (h : lookupConn m p = none) : eraseConn m p = m := by
  induction m with
  | nil => simp [eraseConn]
  | cons e rest ih =>
    obtain ⟨q, c0⟩ := e
    by_cases hq : q = p
    · rw [lookupConn_cons, if_pos hq] at h
      exact absurd h (by simp)
    · rw [lookupConn_cons, if_neg hq] at h
      rw [eraseConn_cons, if_neg hq, ih h]

theorem lookupConn_eraseConn (m : List (Nat × PeerConnection)) (p : Nat) :
    lookupConn (eraseConn m p) p = none := by
  induction m with
  | nil => simp [eraseConn, lookupConn]
  | cons e rest ih =>
    obtain ⟨q, c0⟩ := e
    by_cases hq : q = p
    · rw [eraseConn_cons, if_pos hq, ih]
    · rw [eraseConn_cons, if_neg hq, lookupConn_cons, if_neg hq, ih]

theorem receive_loop_spec (fuel : Nat) (st : P2PState) :
    receive_loop st fuel =
      (min fuel st.incoming.length,
       { st with incoming := st.incoming.drop (min fuel st.incoming.length) },
       if st.handlers.onPacketReceived then
         (st.incoming.take (min fuel st.incoming.length)).map Event.packetReceived
       else []) := by
  induction fuel generalizing st with
  | zero => simp [receive_loop]
  | succ fuel ih =>
    obtain ⟨ini, cfg, conns, inc, hs⟩ := st
    cases inc with
    | nil => simp [receive_loop]
    | cons pkt rest =>
      have ih2 := ih { initialized := ini, config := cfg, connections := conns,
                       incoming := rest, handlers := hs }
      simp only [receive_loop, ih2]
      simp only [Nat.succ_min_succ, List.length_cons, List.drop_succ_cons,
        List.take_succ_cons, List.map_cons]
      cases hb : hs.onPacketReceived <;> simp [hb]

theorem send_packet_sdk_fields (env : SdkEnv) (st : P2PState) (peer : Nat)
    (data : List Nat) (channel : Nat) (rel : PacketReliability) :
    (send_packet_sdk env st peer data channel rel).2.1.initialized = st.initialized ∧
    (send_packet_sdk env st peer data channel rel).2.1.config = st.config := by
  simp only [send_packet_sdk]
  split
  · simp
  · split
    · simp
    · split
      · simp
      · split <;> simp

theorem send_packet_sdk_call (env : SdkEnv) (st : P2PState) (peer : Nat)
    (data : List Nat) (channel : Nat) (rel : PacketReliability)
    (hinit : st.initialized = true) (hp : peer ≠ 0) (hd : data ≠ [])
    (hlen : data.length ≤ st.config.max_packet_size)
    (hplat : env.platformReady = true) :
    (send_packet_sdk env st peer data channel rel).2.2 =
      [TransportCall.sendPacket peer data channel rel] := by
  simp only [send_packet_sdk, hinit, hplat]
  rw [if_neg, if_neg, if_neg]
  · split <;> rfl
  · simp
  · exact Nat.not_lt.mpr hlen
  · simp [hp, hd]

theorem broadcast_loop_calls (env : SdkEnv) (data : List Nat) (channel : Nat)
    (rel : PacketReliability) (peers : List Nat) :
    ∀ st : P2PState, st.initialized = true → data ≠ [] →
      data.length ≤ st.config.max_packet_size → env.platformReady = true →
      (∀ q ∈ peers, q ≠ 0) →
      (broadcast_loop env st peers data channel rel).2 =
        peers.map (fun q => TransportCall.sendPacket q data channel rel) := by
  induction peers with
  | nil => intro st _ _ _ _ _; simp [broadcast_loop]
  | cons p rest ih =>
    intro st hinit hd hlen hplat hz
    have hp : p ≠ 0 := hz p (List.mem_cons_self p rest)
    have hcall := send_packet_sdk_call env st p data channel rel hinit hp hd hlen hplat
    have hfields := send_packet_sdk_fields env st p data channel rel
    have hrest := ih (send_packet_sdk env st p data channel rel).2.1
      (by rw [hfields.1]; exact hinit) hd (by rw [hfields.2]; exact hlen) hplat
      (fun q hq => hz q (List.mem_cons_of_mem p hq))
    simp [broadcast_loop, hcall, hrest]

/-- Claim C1, amended: packet receipt (`receive_packets`) never changes the
connection registry and fires only packet events; the transition of a peer
to `Connected`, with a single on-connected invocation, is performed only by
the connection-established notification handler, which promotes an
existing entry or inserts a fresh `Connected` one. -/
theorem established_handler_connects (st : P2PState) (p : Nat) (m : Nat) :
    Option.map PeerConnection.status
      (lookupConn (handle_connection_established st p).1.connections p) =
        some ConnectionStatus.Connected ∧
    (handle_connection_established st p).2 =
      (if st.handlers.onConnectionEstablished then
        [Event.connectionEstablished p ConnectionStatus.Connected] else []) ∧
    (receive_packets st m).2.1.connections = st.connections ∧
    (receive_packets st m).2.2.all isPacketEvent = true := by
  refine ⟨?_, rfl, ?_⟩
  · cases hl : lookupConn st.connections p with
    | some c =>
      show Option.map PeerConnection.status
        (lookupConn
          (match lookupConn st.connections p with
           | some _ =>
               updateConn st.connections p
                 (fun c0 => { c0 with status := ConnectionStatus.Connected })
           | none =>
               insertConn st.connections p
                 { peer_id := p, status := ConnectionStatus.Connected }) p) = _
      rw [hl, lookupConn_updateConn, hl]
      rfl
    | none =>
      show Option.map PeerConnection.status
        (lookupConn
          (match lookupConn st.connections p with
           | some _ =>
               updateConn st.connections p
                 (fun c0 => { c0 with status := ConnectionStatus.Connected })
           | none =>
               insertConn st.connections p
                 { peer_id := p, status := ConnectionStatus.Connected }) p) = _
      rw [hl, lookupConn_insertConn]
      rfl
  · by_cases hin : st.initialized = true
    · constructor
      · simp [receive_packets, hin, receive_loop_spec]
      · simp only [receive_packets, hin, Bool.not_true, Bool.false_eq_true,
          if_false, receive_loop_spec]
        cases hb : st.handlers.onPacketReceived
        · simp
        · simp only [if_pos rfl, List.all_eq_true]
          intro e he
          obtain ⟨pkt, _, rfl⟩ := List.mem_map.mp he
          rfl
    · have hf : st.initialized = false := by
        cases hsti : st.initialized
        · rfl
        · exact absurd hsti hin
      constructor
      · simp [receive_packets, hf]
      · simp [receive_packets, hf]

/-- Claim C1, counterexample: with peer 1 `Connecting` and an application
packet from peer 1 queued, draining delivers the packet but leaves peer 1
in `Connecting` and fires no on-connected event, contradicting the claimed
packet-driven transition. -/
theorem receive_does_not_connect_cex :
    Option.map PeerConnection.status
      (lookupConn (receive_packets stC1 100).2.1.connections 1) =
        some ConnectionStatus.Connecting ∧
    Event.connectionEstablished 1 ConnectionStatus.Connected ∉
      (receive_packets stC1 100).2.2 ∧
    (receive_packets stC1 100).2.2 = [Event.packetReceived pktFrom1] := by
  decide

/-- Claim C2: `send_packet` rejects (false, state unchanged) an empty
payload, a nil peer, and an oversize payload — the oversize rejection also
hands nothing to the transport — while a payload of exactly
`max_packet_size` passes validation and succeeds. -/
theorem send_packet_validation_bounds (env : SdkEnv) (st : P2PState) (p : Nat)
    (d d2 : List Nat) (ch : Nat) (r : PacketReliability)
    (hinit : st.initialized = true) (hp : p ≠ 0) (hd : d ≠ [])
    (hlen : d.length = st.config.max_packet_size)
    (hlen2 : d2.length = st.config.max_packet_size + 1) :
    send_packet st p [] ch r = (false, st) ∧
    send_packet st 0 d ch r = (false, st) ∧
    (send_packet st p d ch r).1 = true ∧
    send_packet st p d2 ch r = (false, st) ∧
    send_packet_sdk env st p d2 ch r = (false, st, []) := by
  have hd2 : d2 ≠ [] := by
    intro h0
    rw [h0] at hlen2
    simp at hlen2
  have hlt2 : st.config.max_packet_size < d2.length := by
    rw [hlen2]
    exact Nat.lt_succ_self _
  have hnlt : ¬ st.config.max_packet_size < d.length := by
    rw [hlen]
    exact Nat.lt_irrefl _
  refine ⟨?_, ?_, ?_, ?_, ?_⟩
  · simp [send_packet]
  · simp [send_packet]
  · simp [send_packet, hinit, hp, hd, hnlt]
  · simp [send_packet, hinit, hp, hd2, hlt2]
  · simp [send_packet_sdk, hinit, hp, hd2, hlt2]

/-- Claim C2, witness: with `max_packet_size = 3`, a 3-byte payload is
accepted, a 4-byte payload is rejected with no transport call, and empty
payload and nil peer are rejected unchanged. -/
theorem send_packet_validation_bounds_witness :
    send_packet stMax3 1 [] 0 PacketReliability.ReliableOrdered = (false, stMax3) ∧
    send_packet stMax3 0 [7, 7, 7] 0 PacketReliability.ReliableOrdered = (false, stMax3) ∧
    (send_packet stMax3 1 [7, 7, 7] 0 PacketReliability.ReliableOrdered).1 = true ∧
    send_packet stMax3 1 [8, 8, 8, 8] 0 PacketReliability.ReliableOrdered = (false, stMax3) ∧
    send_packet_sdk envAll stMax3 1 [8, 8, 8, 8] 0 PacketReliability.ReliableOrdered =
      (false, stMax3, []) :=
  send_packet_validation_bounds envAll stMax3 1 [7, 7, 7] [8, 8, 8, 8] 0
    PacketReliability.ReliableOrdered rfl (by decide) (by decide) rfl rfl

/-- Claim C3, amended: `connect_to_peer` (non-stub) is not idempotent — when
initialized, with a non-nil peer, a reachable platform and a hello that
passes size validation, it unconditionally hands the one-byte hello on
channel 0 with ReliableOrdered to the transport and overwrites the peer's
entry with a fresh `Connecting` record, regardless of any existing entry. -/
theorem connect_always_sends_hello (env : SdkEnv) (st : P2PState) (p : Nat)
    (hinit : st.initialized = true) (hp : p ≠ 0) (hplat : env.platformReady = true)
    (hmax : 1 ≤ st.config.max_packet_size) :
    (connect_to_peer_sdk env st p).2 =
      [TransportCall.sendPacket p [1] 0 PacketReliability.ReliableOrdered] ∧
    lookupConn (connect_to_peer_sdk env st p).1.connections p =
      some { peer_id := p, status := ConnectionStatus.Connecting } := by
  have hcall := send_packet_sdk_call env st p [1] 0 PacketReliability.ReliableOrdered
    hinit hp (by simp) (by simpa using hmax) hplat
  have hneg : ¬ ((!st.initialized || p == 0) = true) := by simp [hinit, hp]
  constructor
  · simp only [connect_to_peer_sdk, if_neg hneg]
    exact hcall
  · simp only [connect_to_peer_sdk, if_neg hneg]
    exact lookupConn_insertConn
      (send_packet_sdk env st p [1] 0 PacketReliability.ReliableOrdered).2.1.connections p
      { peer_id := p, status := ConnectionStatus.Connecting }

/-- Claim C3, counterexample: peer 5 is already `Connected`, yet
`connect_to_peer` sends a (second) hello to the transport and resets the
entry to `Connecting` — not a no-op. -/
theorem connect_not_idempotent_cex :
    Option.map PeerConnection.status (lookupConn stC3.connections 5) =
      some ConnectionStatus.Connected ∧
    (connect_to_peer_sdk envAll stC3 5).2 =
      [TransportCall.sendPacket 5 [1] 0 PacketReliability.ReliableOrdered] ∧
    Option.map PeerConnection.status
      (lookupConn (connect_to_peer_sdk envAll stC3 5).1.connections 5) =
        some ConnectionStatus.Connecting := by
  decide

/-- Claim C3, witness: connecting to fresh peer 3 sends exactly one hello
and records a `Connecting` entry. -/
theorem connect_always_sends_hello_witness :
    (connect_to_peer_sdk envAll stI 3).2 =
      [TransportCall.sendPacket 3 [1] 0 PacketReliability.ReliableOrdered] ∧
    lookupConn (connect_to_peer_sdk envAll stI 3).1.connections 3 =
      some { peer_id := 3, status := ConnectionStatus.Connecting } :=
  connect_always_sends_hello envAll stI 3 rfl (by decide) rfl (by decide)

/-- Claim C4, amended: `disconnect_from_peer` (initialized, non-nil peer)
erases any entry for the peer and reports no error, but fires the
connection-closed handler with `Disconnected` unconditionally — even for
an unknown peer, whose registry is left unchanged while the handler still
fires. -/
theorem disconnect_fires_even_unknown (st : P2PState) (p : Nat)
    (hinit : st.initialized = true) (hp : p ≠ 0) :
    (disconnect_from_peer st p).1 =
      { st with connections := eraseConn st.connections p } ∧
    lookupConn (disconnect_from_peer st p).1.connections p = none ∧
    (disconnect_from_peer st p).2 =
      (if st.handlers.onConnectionClosed then
        [Event.connectionClosed p ConnectionStatus.Disconnected] else []) ∧
    (lookupConn st.connections p = none → (disconnect_from_peer st p).1 = st) := by
  have hneg : ¬ ((!st.initialized || p == 0) = true) := by simp [hinit, hp]
  refine ⟨?_, ?_, ?_, ?_⟩
  · simp only [disconnect_from_peer, if_neg hneg]
  · simp only [disconnect_from_peer, if_neg hneg]
    exact lookupConn_eraseConn st.connections p
  · simp only [disconnect_from_peer, if_neg hneg]
  · intro hnone
    simp only [disconnect_from_peer, if_neg hneg]
    rw [eraseConn_absent st.connections p hnone]

/-- Claim C4, counterexample: disconnecting unknown peer 9 leaves the state
unchanged but fires the connection-closed handler — the claim's "no
handler fires" is false. -/
theorem disconnect_unknown_fires_cex :
    (disconnect_from_peer stI 9).1 = stI ∧
    (disconnect_from_peer stI 9).2 =
      [Event.connectionClosed 9 ConnectionStatus.Disconnected] :=
  ⟨rfl, rfl⟩

/-- Claim C4, witness: disconnecting known peer 5 removes its entry and
fires the handler. -/
theorem disconnect_fires_even_unknown_witness :
    (disconnect_from_peer stC3 5).1 =
      { stC3 with connections := eraseConn stC3.connections 5 } ∧
    lookupConn (disconnect_from_peer stC3 5).1.connections 5 = none ∧
    (disconnect_from_peer stC3 5).2 =
      (if stC3.handlers.onConnectionClosed then
        [Event.connectionClosed 5 ConnectionStatus.Disconnected] else []) ∧
    (lookupConn stC3.connections 5 = none → (disconnect_from_peer stC3 5).1 = stC3) :=
  disconnect_fires_even_unknown stC3 5 rfl (by decide)

/-- Claim C5, amended: there is no accept filter — the incoming-request
handler auto-accepts every request by delegating to `accept_connections`,
handing one accept call to the transport for any requesting peer; the
request itself creates no registry entry and fires no event. -/
theorem request_auto_accepted (env : SdkEnv) (st : P2PState) (p : Nat)
    (hinit : st.initialized = true) (hplat : env.platformReady = true) :
    handle_connection_request env st p = [TransportCall.acceptConnection p] ∧
    handle_connection_request env st p = accept_connections_sdk env st p := by
  constructor
  · simp [handle_connection_request, accept_connections_sdk, hinit, hplat]
  · rfl

/-- Claim C5, counterexample: a request from arbitrary peer 7 is accepted
(an accept call reaches the transport), not silently dropped. -/
theorem request_not_filtered_cex :
    handle_connection_request envAll stI 7 = [TransportCall.acceptConnection 7] ∧
    handle_connection_request envAll stI 7 ≠ [] := by
  decide

/-- Claim C5, witness: the auto-accept of peer 7's request on the
initialized state. -/
theorem request_auto_accepted_witness :
    handle_connection_request envAll stI 7 = [TransportCall.acceptConnection 7] ∧
    handle_connection_request envAll stI 7 = accept_connections_sdk envAll stI 7 :=
  request_auto_accepted envAll stI 7 rfl rfl

/-- Claim C6: `broadcast_packet` snapshots the peers in `Connected` state
at call time and hands the transport exactly one send per such peer, in
table order; with zero connected peers it performs zero transport calls
and leaves the state unchanged. -/
theorem broadcast_connected_only (env : SdkEnv) (st : P2PState) (data : List Nat)
    (ch : Nat) (r : PacketReliability)
    (hinit : st.initialized = true) (hd : data ≠ [])
    (hlen : data.length ≤ st.config.max_packet_size) (hplat : env.platformReady = true)
    (hz : ∀ q ∈ connectedPeers st, q ≠ 0) :
    (broadcast_packet_sdk env st data ch r).2 =
      (connectedPeers st).map (fun q => TransportCall.sendPacket q data ch r) ∧
    (connectedPeers st = [] → broadcast_packet_sdk env st data ch r = (st, [])) := by
  constructor
  · exact broadcast_loop_calls env data ch r (connectedPeers st) st hinit hd hlen hplat hz
  · intro h0
    simp [broadcast_packet_sdk, h0, broadcast_loop]

/-- Claim C6, witness: with peer 5 `Connected` and peer 1 `Connecting`,
broadcast sends exactly one packet, to peer 5. -/
theorem broadcast_connected_only_witness :
    (broadcast_packet_sdk envAll stBroadcast [9] 0 PacketReliability.UnreliableUnordered).2 =
      (connectedPeers stBroadcast).map
        (fun q => TransportCall.sendPacket q [9] 0 PacketReliability.UnreliableUnordered) ∧
    (connectedPeers stBroadcast = [] →
      broadcast_packet_sdk envAll stBroadcast [9] 0 PacketReliability.UnreliableUnordered =
        (stBroadcast, [])) :=
  broadcast_connected_only envAll stBroadcast [9] 0 PacketReliability.UnreliableUnordered
    rfl (by decide) (by decide) rfl (by decide)

/-- Claim C7: when initialized, `receive_packets` pops `min maxItems
queueLength` packets off the front of the inbound queue in FIFO order,
returns that count, invokes the packet handler once per packet when it is
registered, and silently discards (still consuming) every popped packet
when it is not. -/
theorem receive_packets_fifo (st : P2PState) (m : Nat)
    (hinit : st.initialized = true) :
    receive_packets st m =
      (min m st.incoming.length,
       { st with incoming := st.incoming.drop (min m st.incoming.length) },
       if st.handlers.onPacketReceived then
         (st.incoming.take (min m st.incoming.length)).map Event.packetReceived
       else []) := by
  simp [receive_packets, hinit, receive_loop_spec]

/-- Claim C7, witness: draining at most 2 of 3 queued packets pops the
first two in order. -/
theorem receive_packets_fifo_witness :
    receive_packets stQ 2 =
      (min 2 stQ.incoming.length,
       { stQ with incoming := stQ.incoming.drop (min 2 stQ.incoming.length) },
       if stQ.handlers.onPacketReceived then
         (stQ.incoming.take (min 2 stQ.incoming.length)).map Event.packetReceived
       else []) :=
  receive_packets_fifo stQ 2 rfl

/-- Claim C8, amended: when the subsystem is not already initialized,
`initialize` with `is_logged_in() = false` returns false and changes no
state; when already initialized it returns true immediately, without
consulting authentication. -/
theorem initialize_requires_auth (st st2 : P2PState) (cfg : P2PConfig) (b : Bool)
    (h : st.initialized = false) (h2 : st2.initialized = true) :
    initializeP2P false st cfg = (false, st) ∧ initializeP2P b st2 cfg = (true, st2) := by
  constructor
  · simp [initializeP2P, h]
  · simp [initializeP2P, h2]

/-- Claim C8, counterexample: on an already-initialized state, `initialize`
returns true even though `is_logged_in()` is false — the claimed immediate
false return does not hold at this input. -/
theorem initialize_ignores_auth_when_initialized_cex :
    initializeP2P false stI {} = (true, stI) :=
  rfl

/-- Claim C8, witness: the unauthenticated call fails unchanged on the
fresh state, and succeeds trivially on the already-initialized state. -/
theorem initialize_requires_auth_witness :
    initializeP2P false stU {} = (false, stU) ∧ initializeP2P false stI {} = (true, stI) :=
  initialize_requires_auth stU stI {} false rfl rfl

/-- Claim C9, amended: a successful `send_packet` to a peer that has a
registry entry increases that entry's sent-byte counter by exactly the
payload length; a send to a peer without an entry succeeds while recording
nothing, and the counters are not monotone across all operations, since
`connect_to_peer` replaces the entry and resets them to zero. -/
theorem send_success_increments_bytes (st : P2PState) (p : Nat) (d : List Nat)
    (ch : Nat) (r : PacketReliability) (c : PeerConnection)
    (hinit : st.initialized = true) (hp : p ≠ 0) (hd : d ≠ [])
    (hlen : d.length ≤ st.config.max_packet_size)
    (hc : lookupConn st.connections p = some c) :
    (send_packet st p d ch r).1 = true ∧
    lookupConn (send_packet st p d ch r).2.connections p =
      some { c with bytes_sent := c.bytes_sent + d.length } := by
  have hneg1 : ¬ ((!st.initialized || p == 0 || d.isEmpty) = true) := by
    simp [hinit, hp, hd]
  have hneg2 : ¬ st.config.max_packet_size < d.length := Nat.not_lt.mpr hlen
  constructor
  · simp only [send_packet, if_neg hneg1, if_neg hneg2]
  · simp only [send_packet, if_neg hneg1, if_neg hneg2]
    show lookupConn (updateConn st.connections p
      (fun c0 => { c0 with bytes_sent := c0.bytes_sent + d.length })) p = _
    rw [lookupConn_updateConn, hc]
    rfl

/-- Claim C9, counterexample: peer 5's sent-byte counter reads 5, then
`connect_to_peer` resets it to 0 (non-monotone); and a send to entry-less
peer 1 succeeds with no counter recorded anywhere. -/
theorem counters_not_monotone_cex :
    Option.map PeerConnection.bytes_sent (lookupConn stC3.connections 5) = some 5 ∧
    Option.map PeerConnection.bytes_sent
      (lookupConn (connect_to_peer_sdk envAll stC3 5).1.connections 5) = some 0 ∧
    (send_packet stI 1 [9, 9] 0 PacketReliability.ReliableOrdered).1 = true ∧
    lookupConn (send_packet stI 1 [9, 9] 0 PacketReliability.ReliableOrdered).2.connections 1 =
      none := by
  decide

/-- Claim C9, witness: sending 2 bytes to registered peer 5 bumps its
counter from 5 to 7. -/
theorem send_success_increments_bytes_witness :
    (send_packet stC3 5 [9, 9] 0 PacketReliability.ReliableOrdered).1 = true ∧
    lookupConn (send_packet stC3 5 [9, 9] 0 PacketReliability.ReliableOrdered).2.connections 5 =
      some { conn5 with bytes_sent := conn5.bytes_sent + [9, 9].length } :=
  send_success_increments_bytes stC3 5 [9, 9] 0 PacketReliability.ReliableOrdered conn5
    rfl (by decide) (by decide) (by decide) rfl

/-- Claim C10: on any state that is not initialized, every public operation
is a safe no-op — `send_packet` returns false, `receive_packets` returns
0, and connect, disconnect and accept change no state, fire no callback
and contact no transport. -/
theorem uninitialized_noop (env : SdkEnv) (st : P2PState) (p : Nat) (d : List Nat)
    (ch : Nat) (r : PacketReliability) (m : Nat)
    (h : st.initialized = false) :
    send_packet st p d ch r = (false, st) ∧
    send_packet_sdk env st p d ch r = (false, st, []) ∧
    receive_packets st m = (0, st, []) ∧
    connect_to_peer st p = (st, []) ∧
    connect_to_peer_sdk env st p = (st, []) ∧
    disconnect_from_peer st p = (st, []) ∧
    accept_connections_sdk env st p = [] := by
  simp [send_packet, send_packet_sdk, receive_packets, connect_to_peer,
    connect_to_peer_sdk, disconnect_from_peer, accept_connections_sdk, h]

/-- Claim C10, witness: all operations are no-ops on the default
uninitialized state. -/
theorem uninitialized_noop_witness :
    send_packet stU 1 [9] 0 PacketReliability.ReliableOrdered = (false, stU) ∧
    send_packet_sdk envAll stU 1 [9] 0 PacketReliability.ReliableOrdered = (false, stU, []) ∧
    receive_packets stU 5 = (0, stU, []) ∧
    connect_to_peer stU 1 = (stU, []) ∧
    connect_to_peer_sdk envAll stU 1 = (stU, []) ∧
    disconnect_from_peer stU 1 = (stU, []) ∧
    accept_connections_sdk envAll stU 1 = [] :=
  uninitialized_noop envAll stU 1 [9] 0 PacketReliability.ReliableOrdered 5 rfl

end EOSTesting
